import Mathlib

/-!
Verification of the suntimes library (src/suntimes.py) against its
natural-language specification.

The pure integer/list parts of the source (calendar helpers, duration
rounding, the year-level polar-interval scan) are embedded as computable
Lean definitions.  The floating-point astronomical pipeline is embedded
over `ℝ` with `Real.sin` / `Real.cos` / `Real.arcsin` / `Real.arccos`
standing for the `math` module functions, and Python's dynamic
string-vs-number results are embedded as tagged variants.  Python code
paths that raise (including the `NameError` paths of `PDPN_dates`) are
embedded as `Option`/`Except` failures.
-/

namespace Suntimes

/-! ### Pure calendar and rounding helpers (suntimes.py lines 73-121) -/

/-- Embeds `is_leap_year` (suntimes.py line 73): `False` when
`y % 4 != 0` or (`y % 100 == 0` and `y % 400 != 0`), else `True`.
Python `%` on ints with a positive divisor is nonnegative, as is
`Int.emod`. -/
def is_leap_year (y : ℤ) : Bool :=
  if y % 4 ≠ 0 ∨ (y % 100 = 0 ∧ y % 400 ≠ 0) then false else true

/-- Embeds `len_year` (suntimes.py line 81). -/
def len_year (year : ℤ) : ℕ :=
  if is_leap_year year then 366 else 365

/-- Embeds `length_month` (suntimes.py line 89): days of each month. -/
def length_month (year : ℤ) : List ℕ :=
  if is_leap_year year then [31, 29, 31, 30, 31, 30, 31, 31, 30, 31, 30, 31]
  else [31, 28, 31, 30, 31, 30, 31, 31, 30, 31, 30, 31]

/-- Embeds `days_year` (suntimes.py line 97): the list of `(year, m+1, d+1)`
triples for `m` over the 12 months and `d` over the days of month `m`. -/
def days_year (year : ℤ) : List (ℤ × ℤ × ℤ) :=
  ((List.range 12).map (fun m =>
    (List.range ((length_month year).getD m 0)).map (fun d =>
      (year, (m : ℤ) + 1, (d : ℤ) + 1)))).flatten

/-- Embeds `seconds_to_hhmm` (suntimes.py line 107): duration in whole
seconds to `[hh, mm]`; a remainder of at most 30 seconds rounds the
minute down, otherwise up; `mm = 60` carries; `hh ≥ 24` saturates to
`24:00`. -/
def seconds_to_hhmm (seconds : ℕ) : ℕ × ℕ :=
  let hh := seconds / 3600
  let s := seconds % 3600
  let mm := if s % 60 ≤ 30 then s / 60 else s / 60 + 1
  let p := if mm = 60 then (hh + 1, 0) else (hh, mm)
  if 24 ≤ p.1 then (24, 0) else p

/-- Follows the spec's words for claim C4 ("round-half-up on the minute
boundary: if the remainder seconds after whole minutes ≥ 30, round the
minute up"), to be compared with `seconds_to_hhmm` from the source. -/
def seconds_to_hhmm_specHalfUp (seconds : ℕ) : ℕ × ℕ :=
  let hh := seconds / 3600
  let s := seconds % 3600
  let mm := if 30 ≤ s % 60 then s / 60 + 1 else s / 60
  let p := if mm = 60 then (hh + 1, 0) else (hh, mm)
  if 24 ≤ p.1 then (24, 0) else p

/-- Total minutes of a whole-second duration rounded on the minute
boundary the way the source rounds: a remainder of at most 30 seconds
rounds down, a remainder of 31 or more rounds up. -/
def minutes_rounded (seconds : ℕ) : ℕ :=
  if seconds % 60 ≤ 30 then seconds / 60 else seconds / 60 + 1

/-! ### Per-day duration records and the year-level polar-interval scan
(suntimes.py lines 615-732)

A Python entry of `duration_days_year` is either
`[year, month, day, "PN"]` / `[year, month, day, "PD"]` (a polar day) or
`[year, month, day, hh, mm]` (a concrete duration).  The membership test
`"PN" in d` is true exactly when the fourth element is that string. -/

/-- The tail of one `duration_days_year` entry: a polar marker string or
an `(hh, mm)` duration. -/
inductive DurEntry where
  | polar (marker : String)
  | hm (hh mm : ℕ)
deriving DecidableEq, Repr

/-- One entry of the `duration_days_year` list. -/
structure DurDay where
  year : ℤ
  month : ℤ
  day : ℤ
  dur : DurEntry
deriving DecidableEq, Repr

/-- Default entry used for (always in-range) list indexing. -/
def defaultDurDay : DurDay := ⟨0, 0, 0, DurEntry.hm 0 0⟩

/-- Embeds the Python membership test `mark in d` on one entry: true
exactly when the entry's tail is the polar marker `mark` (the other
elements are integers, never strings). -/
def hasMark (mark : String) (d : DurDay) : Bool :=
  match d.dur with
  | DurEntry.polar s => s == mark
  | DurEntry.hm _ _ => false

/-- Membership of the `i`-th entry (false out of range). -/
def markAt (mark : String) (l : List DurDay) (i : ℕ) : Bool :=
  match l.get? i with
  | some d => hasMark mark d
  | none => false

/-- Embeds the boundary-index scan of `PDPN_dates` (suntimes.py lines
654-690) for one marker: index 0 is a boundary when it carries the
marker; a middle index is a boundary when it carries the marker and a
neighbor does not; the last index is a boundary when it carries the
marker. -/
def boundary_indices (mark : String) (l : List DurDay) : List ℕ :=
  (List.range l.length).filter (fun i =>
    if i = 0 then markAt mark l i
    else if i < l.length - 1 then
      (markAt mark l i && !markAt mark l (i + 1)) ||
        (markAt mark l i && !markAt mark l (i - 1))
    else markAt mark l i)

/-- One reported interval endpoint: a "no interval" message or a
`(month, day)` pair. -/
inductive PDPNRes where
  | msg (s : String)
  | md (month day : ℤ)
deriving DecidableEq, Repr

/-- Embeds the Polar-Night selection block of `PDPN_dates` (suntimes.py
lines 692-710).  Counts other than 0, 2, 4 leave `PN_begin`/`PN_end`
unassigned, so the Python `return` raises `NameError`: embedded as
`none`. -/
def PN_pick (l : List DurDay) (idx : List ℕ) : Option (PDPNRes × PDPNRes) :=
  if idx.length = 0 then
    some (PDPNRes.msg "No Polar Night", PDPNRes.msg "No Polar Night")
  else if idx.length = 2 then
    let b := l.getD (idx.getD 0 0) defaultDurDay
    let e := l.getD (idx.getD 1 0) defaultDurDay
    some (PDPNRes.md b.month b.day, PDPNRes.md e.month e.day)
  else if idx.length = 4 then
    let b := l.getD (idx.getD 2 0) defaultDurDay
    let e := l.getD (idx.getD 1 0) defaultDurDay
    some (PDPNRes.md b.month b.day, PDPNRes.md e.month e.day)
  else none

/-- Embeds the Polar-Day selection block of `PDPN_dates` (suntimes.py
lines 712-730).  As in `PN_pick`, counts other than 0, 2, 4 raise.  In
the 4-boundary branch the source line 727 reads the undefined name
`PDN_begin_day`, so that branch always raises `NameError`: embedded as
`none`. -/
def PD_pick (l : List DurDay) (idx : List ℕ) : Option (PDPNRes × PDPNRes) :=
  if idx.length = 0 then
    some (PDPNRes.msg "No Polar Day", PDPNRes.msg "No Polar Day")
  else if idx.length = 2 then
    let b := l.getD (idx.getD 0 0) defaultDurDay
    let e := l.getD (idx.getD 1 0) defaultDurDay
    some (PDPNRes.md b.month b.day, PDPNRes.md e.month e.day)
  else if idx.length = 4 then none
  else none

/-- Embeds `SunFiles.PDPN_dates` (suntimes.py line 650) as a function of
the `duration_days_year` list: the result `[PD_begin, PD_end, PN_begin,
PN_end]`, or `none` when the Python code raises. -/
def PDPN_dates (l : List DurDay) : Option (PDPNRes × PDPNRes × PDPNRes × PDPNRes) :=
  match PD_pick l (boundary_indices "PD" l), PN_pick l (boundary_indices "PN" l) with
  | some pd, some pn => some (pd.1, pd.2, pn.1, pn.2)
  | _, _ => none

/-! ### Calendar / Julian-day collaborators

`gcal2jd` and `jd2gcal` come from the external `jdcal` package (not under
src/); the spec declares them as collaborators
(`to_julian_day(year, month, day) -> (integer_part, fractional_part)` and
its inverse, proleptic Gregorian). -/

/-- Modelled from the spec: the proleptic-Gregorian calendar-to-Julian-day
collaborator, as the Julian Day Number (the JD of the day's 12:00 UTC
instant), via the standard Fliegel-Van Flandern formula.  Lean's `ℤ`
division agrees with Python floor division on the nonnegative
intermediates arising for proleptic Gregorian dates of interest. -/
def jdn (y m d : ℤ) : ℤ :=
  let a := (14 - m) / 12
  let yy := y + 4800 - a
  let mm := m + 12 * a - 3
  d + (153 * mm + 2) / 5 + 365 * yy + yy / 4 - yy / 100 + yy / 400 - 32045

/-- A civil date `(year, month, day)`, the date part of the Python
`datetime` arguments. -/
structure GDate where
  year : ℤ
  month : ℤ
  day : ℤ
deriving DecidableEq, Repr

/-- Modelled from the spec: the inverse Julian-day-to-calendar
collaborator on the integer Julian Day Number (standard inverse of the
Fliegel-Van Flandern formula). -/
def jdn_to_gdate (j : ℤ) : GDate :=
  let a := j + 32044
  let b := (4 * a + 3) / 146097
  let c := a - 146097 * b / 4
  let dd := (4 * c + 3) / 1461
  let e := c - 1461 * dd / 4
  let mm := (5 * e + 2) / 153
  ⟨100 * b + dd - 4800 + mm / 10, mm + 3 - 12 * (mm / 10), e - (153 * mm + 2) / 5 + 1⟩

noncomputable section

/-- Modelled from the spec: the `gcal2jd` collaborator of the `jdcal`
package, returning `(2400000.5, mjd)` whose sum is the Julian Date of the
date's 00:00 UTC instant (so that, as the source uses it, `sum + 0.5` is
the Julian Day Number at 12:00 UTC). -/
def gcal2jd (y m d : ℤ) : ℝ × ℝ :=
  (2400000.5, (jdn y m d : ℝ) - 2400001)

/-- Modelled from the spec: the `jd2gcal` collaborator of the `jdcal`
package: the civil date containing the instant `jd1 + jd2` together with
the fraction of that civil day elapsed since its 00:00 UTC. -/
def jd2gcal (jd1 jd2 : ℝ) : GDate × ℝ :=
  let j := jd1 + jd2 + 1 / 2
  (jdn_to_gdate ⌊j⌋, j - ⌊j⌋)

/-! ### Constants (suntimes.py lines 13-40) -/

def JULIAN_DAYS_2000 : ℝ := 2451545.0
def JULIAN_DAYS_LEAP : ℝ := 0.00084
def MEAN_M0 : ℝ := 357.5291
def MEAN_M1 : ℝ := 0.98560028
def CENTER_C0 : ℝ := 1.9148
def CENTER_C1 : ℝ := 0.0200
def CENTER_C2 : ℝ := 0.0003
def PERIHELION_ARGUMENT : ℝ := 102.9372
def TIME_0 : ℝ := 0.0053
def TIME_1 : ℝ := 0.0069
def OBLIQUITY : ℝ := 23.44
def CORRECTION_REFRACTION : ℝ := -0.833
def CORRECTION_ELEVATION : ℝ := -2.076

/-- Python `x % 360.0` on floats: the representative in `[0, 360)`. -/
def pymod360 (x : ℝ) : ℝ := x - 360 * ⌊x / 360⌋

/-- Python `int(x)`: truncation toward zero. -/
def pytrunc (x : ℝ) : ℤ := if 0 ≤ x then ⌊x⌋ else ⌈x⌉

/-- Python `round(x)`: round half to even. -/
def pyround (x : ℝ) : ℤ :=
  if x - ⌊x⌋ < 1 / 2 then ⌊x⌋
  else if 1 / 2 < x - ⌊x⌋ then ⌊x⌋ + 1
  else if ⌊x⌋ % 2 = 0 then ⌊x⌋ else ⌊x⌋ + 1

/-- Embeds `round_fractionDay_toHM` (suntimes.py line 52): a fraction of
a day to `(h, mn)` with the minute rounded; `m = 60` carries into the
hour; a carry into hour 24 is clamped to `(23, 59)`. -/
def round_fractionDay_toHM (f : ℝ) : ℤ × ℤ :=
  let h := pytrunc (f * 24)
  let m := pyround (f * 60 * 24 - (h : ℝ) * 60)
  if m < 60 then (h, m)
  else if h + 1 = 24 then (23, 59) else (h + 1, 0)

/-! ### The SunTimes class (suntimes.py lines 135-353) -/

/-- A place: longitude, latitude (degrees), altitude (meters). -/
structure SunTimes where
  longitude : ℝ
  latitude : ℝ
  altitude : ℝ

/-- Embeds `SunTimes.__init__` (suntimes.py line 153): rejects longitude
outside [-180, 180], latitude outside [-90, 90] and negative altitude
with `ValueError`; a latitude beyond the polar circles only triggers a
printed warning (captured by `SunTimes.polar_warning`), not a rejection. -/
def SunTimes.init (longitude latitude : ℝ) (altitude : ℝ := 0) :
    Except String SunTimes :=
  if ¬(-180 ≤ longitude ∧ longitude ≤ 180) then
    Except.error "longitude must be between -180 and +180"
  else if ¬(-90 ≤ latitude ∧ latitude ≤ 90) then
    Except.error "latitude must be between -90 and +90"
  else if altitude < 0 then
    Except.error "altitude must be positive"
  else Except.ok ⟨longitude, latitude, altitude⟩

/-- The condition under which `SunTimes.__init__` prints its beyond-the-
polar-circles warning (suntimes.py line 158). -/
def SunTimes.polar_warning (latitude : ℝ) : Prop :=
  ¬(-66.56 ≤ latitude ∧ latitude ≤ 66.56)

/-- Embeds `SunTimes.mean_solar_noon` (suntimes.py line 166):
`Jdate = gcal2jd(...)[0] + gcal2jd(...)[1] + 0.5`, then
`Jdate - JULIAN_DAYS_2000 + JULIAN_DAYS_LEAP - longitude/360`. -/
def SunTimes.mean_solar_noon (st : SunTimes) (date : GDate) : ℝ :=
  let Jdate := (gcal2jd date.year date.month date.day).1 +
    (gcal2jd date.year date.month date.day).2 + 0.5
  Jdate - JULIAN_DAYS_2000 + JULIAN_DAYS_LEAP - st.longitude / 360

/-- Follows the spec's words for claim C2 ("subtract the J2000 epoch
constant (2451545.0) plus a fixed leap-second/terrestrial-time offset
(0.00084), then subtract longitude/360"), to be compared with
`SunTimes.mean_solar_noon` from the source. -/
def SunTimes.mean_solar_noon_specSum (st : SunTimes) (date : GDate) : ℝ :=
  let Jdate := (gcal2jd date.year date.month date.day).1 +
    (gcal2jd date.year date.month date.day).2 + 0.5
  Jdate - (JULIAN_DAYS_2000 + JULIAN_DAYS_LEAP) - st.longitude / 360

/-- Embeds `SunTimes.solar_mean_anomaly` (suntimes.py line 175). -/
def SunTimes.solar_mean_anomaly (st : SunTimes) (date : GDate) : ℝ :=
  pymod360 (MEAN_M0 + MEAN_M1 * st.mean_solar_noon date)

/-- Embeds `SunTimes.equation_center` (suntimes.py line 180). -/
def SunTimes.equation_center (st : SunTimes) (date : GDate) : ℝ :=
  let M := st.solar_mean_anomaly date
  CENTER_C0 * Real.sin (M * Real.pi / 180) +
    CENTER_C1 * Real.sin (2 * M * Real.pi / 180) +
    CENTER_C2 * Real.sin (3 * M * Real.pi / 180)

/-- Embeds `SunTimes.ecliptic_longitude` (suntimes.py line 185). -/
def SunTimes.ecliptic_longitude (st : SunTimes) (date : GDate) : ℝ :=
  pymod360 (st.solar_mean_anomaly date + st.equation_center date + 180 +
    PERIHELION_ARGUMENT)

/-- Embeds `SunTimes.solar_transit` (suntimes.py line 191). -/
def SunTimes.solar_transit (st : SunTimes) (date : GDate) : ℝ :=
  let M := st.solar_mean_anomaly date
  let le := st.ecliptic_longitude date
  JULIAN_DAYS_2000 + st.mean_solar_noon date +
    TIME_0 * Real.sin (M * Real.pi / 180) -
    TIME_1 * Real.sin (2 * le * Real.pi / 180)

/-- Embeds `SunTimes.declination_sun` (suntimes.py line 198). -/
def SunTimes.declination_sun (st : SunTimes) (date : GDate) : ℝ :=
  let le := st.ecliptic_longitude date
  Real.arcsin (Real.sin (le * Real.pi / 180) * Real.sin (OBLIQUITY * Real.pi / 180))

/-- Embeds `SunTimes.getOmega0` (suntimes.py line 203): the hour-angle
cosine, computed unconditionally from elevation, latitude and
declination. -/
def SunTimes.getOmega0 (st : SunTimes) (date : GDate) : ℝ :=
  let elevation := CORRECTION_REFRACTION +
    CORRECTION_ELEVATION * Real.sqrt st.altitude / 60
  let delta := st.declination_sun date
  (Real.sin (elevation * Real.pi / 180) -
      Real.sin (st.latitude * Real.pi / 180) * Real.sin delta) /
    (Real.cos (st.latitude * Real.pi / 180) * Real.cos delta)

/-- The tri-state result of `SunTimes.hour_angle`: a concrete hour angle,
or the polar-night / polar-day string sentinel. -/
inductive HourAngle where
  | angle (omega0 : ℝ)
  | PN
  | PD

/-- Embeds `SunTimes.hour_angle` (suntimes.py line 209): `acos(cosOmega0)`
when `|cosOmega0| ≤ 1`, the string `"PN"` when `cosOmega0 > 1`, else the
string `"PD"`. -/
def SunTimes.hour_angle (st : SunTimes) (date : GDate) : HourAngle :=
  let cosOmega0 := st.getOmega0 date
  if |cosOmega0| ≤ 1 then HourAngle.angle (Real.arccos cosOmega0)
  else if cosOmega0 > 1 then HourAngle.PN
  else HourAngle.PD

/-- Embeds `SunTimes.J_rise_set_greg` (suntimes.py line 220): either the
two `jd2gcal` conversions of `J_transit ∓ (omega0·180/π)/360`, or the
date together with the polar marker string. -/
def SunTimes.J_rise_set_greg (st : SunTimes) (date : GDate) :
    ((GDate × ℝ) × (GDate × ℝ)) ⊕ (GDate × String) :=
  match st.hour_angle date with
  | HourAngle.angle omega0 =>
    let J_transit := st.solar_transit date
    let J_rise := J_transit - omega0 * 180 / Real.pi / 360
    let J_set := J_transit + omega0 * 180 / Real.pi / 360
    Sum.inl (jd2gcal (pytrunc J_rise : ℤ) (J_rise - (pytrunc J_rise : ℤ)),
      jd2gcal (pytrunc J_set : ℤ) (J_set - (pytrunc J_set : ℤ)))
  | HourAngle.PN => Sum.inr (date, "PN")
  | HourAngle.PD => Sum.inr (date, "PD")

/-- A Python `datetime(year, month, day, hour, minute)` value. -/
structure PyDatetime where
  date : GDate
  hour : ℤ
  minute : ℤ
deriving DecidableEq, Repr

/-- A rise or set result: a concrete UTC instant, or a polar marker
string. -/
inductive RiseSetResult where
  | time (t : PyDatetime)
  | polar (marker : String)
deriving DecidableEq, Repr

/-- Embeds `SunTimes.riseutc` (suntimes.py line 240). -/
def SunTimes.riseutc (st : SunTimes) (date : GDate) : RiseSetResult :=
  match st.J_rise_set_greg date with
  | Sum.inl (r, _) =>
    let hms := round_fractionDay_toHM r.2
    RiseSetResult.time ⟨r.1, hms.1, hms.2⟩
  | Sum.inr (_, s) => RiseSetResult.polar s

/-- Embeds `SunTimes.setutc` (suntimes.py line 250). -/
def SunTimes.setutc (st : SunTimes) (date : GDate) : RiseSetResult :=
  match st.J_rise_set_greg date with
  | Sum.inl (_, sSet) =>
    let hms := round_fractionDay_toHM sSet.2
    RiseSetResult.time ⟨sSet.1, hms.1, hms.2⟩
  | Sum.inr (_, s) => RiseSetResult.polar s

/-- The instant of a `PyDatetime` counted in whole seconds on the Julian
day line, used to embed `datetime` subtraction. -/
def PyDatetime.toSeconds (t : PyDatetime) : ℤ :=
  jdn t.date.year t.date.month t.date.day * 86400 + t.hour * 3600 + t.minute * 60

/-- Embeds `SunTimes.durationdelta` (suntimes.py line 308): the timedelta
`sunset - sunrise` (in whole seconds) when both are concrete; the string
`"Not calculable : <marker>"` when both are polar markers; otherwise the
mixed-change string. -/
def SunTimes.durationdelta (st : SunTimes) (date : GDate) : ℤ ⊕ String :=
  match st.riseutc date, st.setutc date with
  | RiseSetResult.time r, RiseSetResult.time s =>
    Sum.inl (s.toSeconds - r.toSeconds)
  | RiseSetResult.polar a, RiseSetResult.polar _ =>
    Sum.inr ("Not calculable : " ++ a)
  | _, _ => Sum.inr "Not calculable : changement jour/nuit polaire"

/-! ### The SunFiles year aggregation (suntimes.py lines 615-648) -/

/-- One iteration of the loop of `SunFiles.duration_days_year`
(suntimes.py lines 623-636): the polar marker when the rise (or else the
set) is a marker string, otherwise `seconds_to_hhmm` of the timedelta's
`.seconds` component (nonnegative, below 86400). -/
def duration_day_entry (st : SunTimes) (y M D : ℤ) : DurDay :=
  match st.riseutc ⟨y, M, D⟩, st.setutc ⟨y, M, D⟩ with
  | RiseSetResult.polar s, _ => ⟨y, M, D, DurEntry.polar s⟩
  | RiseSetResult.time _, RiseSetResult.polar s => ⟨y, M, D, DurEntry.polar s⟩
  | RiseSetResult.time r, RiseSetResult.time sSet =>
    let seconds := ((sSet.toSeconds - r.toSeconds) % 86400).toNat
    let hhmm := seconds_to_hhmm seconds
    ⟨y, M, D, DurEntry.hm hhmm.1 hhmm.2⟩

/-- Embeds `SunFiles.duration_days_year` (suntimes.py line 615): one
entry per element of `days_year`. -/
def SunFiles.duration_days_year (st : SunTimes) (year : ℤ) : List DurDay :=
  (days_year year).map (fun t => duration_day_entry st t.1 t.2.1 t.2.2)

/-- Embeds `SunFiles.PDPN_length` (suntimes.py line 640): the pair of the
lengths of the sublists of duration entries containing `"PN"` and
containing `"PD"`, in that order. -/
def SunFiles.PDPN_length (st : SunTimes) (year : ℤ) : ℕ × ℕ :=
  let duration_days := SunFiles.duration_days_year st year
  ((duration_days.filter (hasMark "PN")).length,
    (duration_days.filter (hasMark "PD")).length)

/-- Embeds the class-level `SunFiles.PDPN_dates` (suntimes.py line 650):
the list-level scan applied to the year's duration entries. -/
def SunFiles.PDPN_dates (st : SunTimes) (year : ℤ) :
    Option (PDPNRes × PDPNRes × PDPNRes × PDPNRes) :=
  Suntimes.PDPN_dates (SunFiles.duration_days_year st year)

end

/-! ## Theorems for the claims -/

/-! ### C4 — duration rounding to hours and minutes -/

/-- C4 counterexample: at 30 whole seconds the source rounds the minute
down, `seconds_to_hhmm 30 = (0, 0)`, while the claim's round-half-up rule
(remainder ≥ 30 rounds the minute up) demands `(0, 1)`: the claim as
stated is false at input 30. -/
theorem C4_counterexample :
    seconds_to_hhmm 30 = (0, 0) ∧ seconds_to_hhmm_specHalfUp 30 = (0, 1) ∧
      seconds_to_hhmm 30 ≠ seconds_to_hhmm_specHalfUp 30 := by
  decide

/-- C4 (amended): for every whole-second day duration `s ≤ 86400`, the
conversion to hours and minutes rounds half-down on the minute boundary
(a remainder of at most 30 seconds rounds the minute down, 31 or more
rounds it up), a minute of 60 carries into the hour, and an hour ≥ 24
saturates to exactly 24:00: the result equals the total rounded minutes
split as (hours capped at 24, residual minutes). -/
theorem C4_seconds_to_hhmm_rounds_half_down (s : ℕ) (hs : s ≤ 86400) :
    seconds_to_hhmm s = (min (minutes_rounded s / 60) 24,
      if 24 ≤ minutes_rounded s / 60 then 0 else minutes_rounded s % 60) := by
  simp only [seconds_to_hhmm, minutes_rounded]
  split_ifs <;> simp_all <;> omega

/-- C4 witness: the amended theorem evaluated at 3599 seconds (remainder
59 rounds up, the minute carries into the hour). -/
theorem C4_witness :
    3599 ≤ 86400 ∧ seconds_to_hhmm 3599 = (1, 0) :=
  ⟨by decide, C4_seconds_to_hhmm_rounds_half_down 3599 (by decide)⟩

/-! ### C7 — one record per calendar day, Gregorian leap rule -/

set_option maxRecDepth 4000 in
/-- C7: `days_year` produces one entry per calendar day: 366 entries when
the year is leap per the standard Gregorian rule (divisible by 4 and not
by 100, unless also divisible by 400) and 365 otherwise; in particular
366 for 2020 and 365 for 2021.  `SunFiles.duration_days_year` maps over
exactly this list, one `DayRecord` per entry. -/
theorem C7_days_year_length : ∀ y : ℤ,
    ((days_year y).length = if is_leap_year y then 366 else 365) ∧
    (is_leap_year y = true ↔ (y % 4 = 0 ∧ (y % 100 ≠ 0 ∨ y % 400 = 0))) ∧
    (days_year 2020).length = 366 ∧ (days_year 2021).length = 365 := by
  intro y
  refine ⟨?_, ?_, by decide, by decide⟩
  · cases h : is_leap_year y <;>
      simp only [days_year, length_month, h, if_true, if_false, Bool.false_eq_true,
        List.length_flatten, List.map_map, Function.comp_def, List.length_map,
        List.length_range] <;>
      decide
  · simp only [is_leap_year]
    split_ifs with h
    · simp only [Bool.false_eq_true, false_iff]
      tauto
    · push_neg at h
      simp only [true_iff]
      tauto

/-! ### C3 — the 4-boundary (wrapped polar interval) selection rule -/

/-- A synthetic year of 7 duration entries (month 1, days 1-7) whose
Polar-Night interval wraps the year boundary: days 1-2 and 5-7 are polar
night, so the scan finds the 4 boundary indices [0, 1, 4, 6]. -/
def C3_list : List DurDay :=
  [⟨2021, 1, 1, DurEntry.polar "PN"⟩, ⟨2021, 1, 2, DurEntry.polar "PN"⟩,
   ⟨2021, 1, 3, DurEntry.hm 8 30⟩, ⟨2021, 1, 4, DurEntry.hm 8 30⟩,
   ⟨2021, 1, 5, DurEntry.polar "PN"⟩, ⟨2021, 1, 6, DurEntry.polar "PN"⟩,
   ⟨2021, 1, 7, DurEntry.polar "PN"⟩]

/-- C3 counterexample: on `C3_list` the boundary indices for `"PN"` are
[0, 1, 4, 6], the third boundary is index 4 (month 1, day 5) and the day
after it is (1, 6); the source reports begin = (1, 5), the day AT the
third boundary, not the day after it as the claim states. -/
theorem C3_counterexample :
    boundary_indices "PN" C3_list = [0, 1, 4, 6] ∧
    PDPN_dates C3_list = some (PDPNRes.msg "No Polar Day",
      PDPNRes.msg "No Polar Day", PDPNRes.md 1 5, PDPNRes.md 1 2) ∧
    (C3_list.getD ((boundary_indices "PN" C3_list).getD 2 0 + 1)
        defaultDurDay).month = 1 ∧
    (C3_list.getD ((boundary_indices "PN" C3_list).getD 2 0 + 1)
        defaultDurDay).day = 6 ∧
    PDPNRes.md 1 5 ≠ PDPNRes.md 1 6 := by
  decide

/-- C3 (amended): when exactly 4 boundary indices are found, the reported
begin is the day AT the third boundary (not the day after it) and the
reported end is the day at the second boundary — for the PolarNight
marker; for the PolarDay marker the 4-boundary branch of the source reads
the undefined name `PDN_begin_day`, so the whole computation fails
(raises) instead of reporting an interval. -/
theorem C3_four_boundary_rule : ∀ l : List DurDay,
    ((boundary_indices "PN" l).length = 4 →
      ((boundary_indices "PD" l).length = 0 ∨ (boundary_indices "PD" l).length = 2) →
      ∃ pd1 pd2, PDPN_dates l = some (pd1, pd2,
        PDPNRes.md (l.getD ((boundary_indices "PN" l).getD 2 0) defaultDurDay).month
          (l.getD ((boundary_indices "PN" l).getD 2 0) defaultDurDay).day,
        PDPNRes.md (l.getD ((boundary_indices "PN" l).getD 1 0) defaultDurDay).month
          (l.getD ((boundary_indices "PN" l).getD 1 0) defaultDurDay).day)) ∧
    ((boundary_indices "PD" l).length = 4 → PDPN_dates l = none) := by
  intro l
  constructor
  · intro hPN hPD
    rcases hPD with h0 | h2
    · exact ⟨PDPNRes.msg "No Polar Day", PDPNRes.msg "No Polar Day",
        by simp [PDPN_dates, PN_pick, PD_pick, hPN, h0]⟩
    · exact ⟨PDPNRes.md (l.getD ((boundary_indices "PD" l).getD 0 0) defaultDurDay).month
          (l.getD ((boundary_indices "PD" l).getD 0 0) defaultDurDay).day,
        PDPNRes.md (l.getD ((boundary_indices "PD" l).getD 1 0) defaultDurDay).month
          (l.getD ((boundary_indices "PD" l).getD 1 0) defaultDurDay).day,
        by simp [PDPN_dates, PN_pick, PD_pick, hPN, h2]⟩
  · intro hPD
    simp [PDPN_dates, PD_pick, hPD]

/-- C3 witness: the amended theorem evaluated on `C3_list` (4 PolarNight
boundaries, none for PolarDay): begin = (1, 5), end = (1, 2). -/
theorem C3_witness :
    (boundary_indices "PN" C3_list).length = 4 ∧
    (∃ pd1 pd2, PDPN_dates C3_list = some (pd1, pd2,
      PDPNRes.md 1 5, PDPNRes.md 1 2)) :=
  ⟨by decide, (C3_four_boundary_rule C3_list).1 (by decide) (Or.inl (by decide))⟩

/-! ### C5 — inconsistent boundary counts surface as an error -/

/-- C5: a boundary count other than 0, 2 or 4 for either marker makes the
year-level interval detection fail (in the source the selection variables
stay unassigned and the return raises); it never produces a best-guess
result. -/
theorem C5_bad_count_errors : ∀ l : List DurDay,
    (¬((boundary_indices "PN" l).length = 0 ∨ (boundary_indices "PN" l).length = 2 ∨
        (boundary_indices "PN" l).length = 4) ∨
     ¬((boundary_indices "PD" l).length = 0 ∨ (boundary_indices "PD" l).length = 2 ∨
        (boundary_indices "PD" l).length = 4)) →
    PDPN_dates l = none := by
  intro l h
  rcases h with h | h <;> push_neg at h <;> obtain ⟨h0, h2, h4⟩ := h
  · simp [PDPN_dates, PN_pick, h0, h2, h4]
  · simp [PDPN_dates, PD_pick, h0, h2, h4]

/-- A synthetic 3-day sequence with a single isolated interior PolarNight
day: the scan finds exactly one boundary index, a count outside
{0, 2, 4}. -/
def C5_list : List DurDay :=
  [⟨2021, 1, 1, DurEntry.hm 8 30⟩, ⟨2021, 1, 2, DurEntry.polar "PN"⟩,
   ⟨2021, 1, 3, DurEntry.hm 8 30⟩]

/-- C5 witness: on `C5_list` the PolarNight boundary count is 1 and the
detection fails rather than reporting an interval. -/
theorem C5_witness :
    (boundary_indices "PN" C5_list).length = 1 ∧ PDPN_dates C5_list = none :=
  ⟨by decide, C5_bad_count_errors C5_list (Or.inl (by decide))⟩

/-! ### C1 — the hour-angle cosine is the only gate -/

/-- C1: for every place and date the rise/set computation produces
exactly one of three outcomes, decided solely by the hour-angle cosine
`getOmega0`: `PN` iff it exceeds 1, `PD` iff it is below -1, and
otherwise the concrete hour angle `acos` of it; there is no separate
latitude-based gate. -/
theorem C1_hour_angle_trichotomy : ∀ (st : SunTimes) (date : GDate),
    (st.hour_angle date = HourAngle.PN ↔ 1 < st.getOmega0 date) ∧
    (st.hour_angle date = HourAngle.PD ↔ st.getOmega0 date < -1) ∧
    (st.hour_angle date = HourAngle.angle (Real.arccos (st.getOmega0 date)) ↔
      |st.getOmega0 date| ≤ 1) ∧
    (st.hour_angle date = HourAngle.angle (Real.arccos (st.getOmega0 date)) ∨
      st.hour_angle date = HourAngle.PN ∨ st.hour_angle date = HourAngle.PD) := by
  intro st date
  by_cases h : |st.getOmega0 date| ≤ 1
  · have h1 : ¬(1 < st.getOmega0 date) := by
      rcases abs_le.mp h with ⟨hl, hr⟩; linarith
    have h2 : ¬(st.getOmega0 date < -1) := by
      rcases abs_le.mp h with ⟨hl, hr⟩; linarith
    simp [SunTimes.hour_angle, h, h1, h2]
  · by_cases hgt : st.getOmega0 date > 1
    · simp only [SunTimes.hour_angle, if_neg h, if_pos hgt]
      refine ⟨by simp [hgt], by simp; linarith, by simp [h], by simp⟩
    · have hlt : st.getOmega0 date < -1 := by
        by_contra hc
        push_neg at hc
        exact h (abs_le.mpr ⟨hc, not_lt.mp hgt⟩)
      simp only [SunTimes.hour_angle, if_neg h, if_neg hgt]
      refine ⟨by simp; linarith, by simp [hlt], by simp [h], by simp⟩

/-! ### C2 — the mean-solar-noon formula -/

/-- C2 counterexample: at longitude 0 on 2000-01-01 (Julian Day Number
2451545 at noon) the source computes 0.00084 while the claim's formula
`JDN - (2451545.0 + 0.00084) - longitude/360` gives -0.00084: the source
adds the 0.00084 offset instead of subtracting it. -/
theorem C2_counterexample :
    SunTimes.mean_solar_noon ⟨0, 0, 0⟩ ⟨2000, 1, 1⟩ = 21 / 25000 ∧
    SunTimes.mean_solar_noon_specSum ⟨0, 0, 0⟩ ⟨2000, 1, 1⟩ = -(21 / 25000) ∧
    SunTimes.mean_solar_noon ⟨0, 0, 0⟩ ⟨2000, 1, 1⟩ ≠
      SunTimes.mean_solar_noon_specSum ⟨0, 0, 0⟩ ⟨2000, 1, 1⟩ := by
  have hj : jdn 2000 1 1 = 2451545 := by decide
  refine ⟨?_, ?_, ?_⟩ <;>
    simp only [SunTimes.mean_solar_noon, SunTimes.mean_solar_noon_specSum, gcal2jd,
      JULIAN_DAYS_2000, JULIAN_DAYS_LEAP, hj] <;>
    norm_num

/-- C2 (amended): the mean solar noon equals the Julian Day Number of the
date at 12:00 UTC minus the DIFFERENCE `2451545.0 - 0.00084` (the leap-
second/terrestrial-time offset is added to `JDN - 2451545.0`, not
subtracted), minus `longitude/360`. -/
theorem C2_mean_solar_noon_formula : ∀ (st : SunTimes) (date : GDate),
    st.mean_solar_noon date =
      ((gcal2jd date.year date.month date.day).1 +
        (gcal2jd date.year date.month date.day).2 + 0.5) -
        (JULIAN_DAYS_2000 - JULIAN_DAYS_LEAP) - st.longitude / 360 := by
  intro st date
  simp only [SunTimes.mean_solar_noon]
  ring

/-! ### C8 — construction-time validation -/

/-- C8: `SunTimes.__init__` fails exactly when longitude is outside
[-180, 180], latitude is outside [-90, 90], or altitude is negative; a
latitude beyond the polar circles (the warning condition) never causes a
rejection; and a successfully constructed place holds exactly the given
fields (nothing invalidates it later). -/
theorem C8_init_validation : ∀ longitude latitude altitude : ℝ,
    ((∃ st, SunTimes.init longitude latitude altitude = Except.ok st) ↔
      (-180 ≤ longitude ∧ longitude ≤ 180 ∧ -90 ≤ latitude ∧ latitude ≤ 90 ∧
        0 ≤ altitude)) ∧
    (∀ st, SunTimes.init longitude latitude altitude = Except.ok st →
      st.longitude = longitude ∧ st.latitude = latitude ∧ st.altitude = altitude) ∧
    (SunTimes.polar_warning latitude →
      -180 ≤ longitude → longitude ≤ 180 → -90 ≤ latitude → latitude ≤ 90 →
      0 ≤ altitude → ∃ st, SunTimes.init longitude latitude altitude = Except.ok st) := by
  intro lon lat alt
  have hok : ∀ (h1 : -180 ≤ lon) (h2 : lon ≤ 180) (h3 : -90 ≤ lat) (h4 : lat ≤ 90)
      (h5 : 0 ≤ alt), SunTimes.init lon lat alt = Except.ok ⟨lon, lat, alt⟩ := by
    intro h1 h2 h3 h4 h5
    simp only [SunTimes.init]
    rw [if_neg (not_not_intro ⟨h1, h2⟩), if_neg (not_not_intro ⟨h3, h4⟩),
      if_neg (not_lt.mpr h5)]
  refine ⟨?_, ?_, ?_⟩
  · constructor
    · rintro ⟨st, hst⟩
      simp only [SunTimes.init] at hst
      split_ifs at hst with h1 h2 h3
      push_neg at h1 h2
      exact ⟨h1.1, h1.2, h2.1, h2.2, le_of_not_lt h3⟩
    · rintro ⟨h1, h2, h3, h4, h5⟩
      exact ⟨_, hok h1 h2 h3 h4 h5⟩
  · intro st hst
    simp only [SunTimes.init] at hst
    split_ifs at hst
    cases hst
    exact ⟨rfl, rfl, rfl⟩
  · intro _ h1 h2 h3 h4 h5
    exact ⟨_, hok h1 h2 h3 h4 h5⟩

/-- C8 witness: latitude 70 is beyond the polar circles, yet construction
at longitude 0, latitude 70, altitude 0 succeeds. -/
theorem C8_witness :
    SunTimes.polar_warning 70 ∧
    ∃ st, SunTimes.init 0 70 0 = Except.ok st :=
  ⟨by simp only [SunTimes.polar_warning]; norm_num,
    (C8_init_validation 0 70 0).2.2
      (by simp only [SunTimes.polar_warning]; norm_num)
      (by norm_num) (by norm_num) (by norm_num) (by norm_num) (by norm_num)⟩

/-! ### C9 — polar days yield a tagged not-calculable duration -/

/-- C9: whenever the rise or the set outcome of a day is a polar marker,
the duration is the tagged not-calculable value (both in
`SunTimes.durationdelta` and in the per-day entry built by
`SunFiles.duration_days_year`), and the tag is the marker that applied. -/
theorem C9_polar_duration_tagged : ∀ (st : SunTimes) (y M D : ℤ) (m : String),
    (st.riseutc ⟨y, M, D⟩ = RiseSetResult.polar m ∨
      st.setutc ⟨y, M, D⟩ = RiseSetResult.polar m) →
    st.durationdelta ⟨y, M, D⟩ = Sum.inr ("Not calculable : " ++ m) ∧
    (duration_day_entry st y M D).dur = DurEntry.polar m ∧
    (m = "PN" ∨ m = "PD") := by
  intro st y M D m hpolar
  cases hha : st.hour_angle ⟨y, M, D⟩ with
  | angle omega0 =>
    rcases hpolar with h | h <;>
      simp [SunTimes.riseutc, SunTimes.setutc, SunTimes.J_rise_set_greg, hha] at h
  | PN =>
    have hm : m = "PN" := by
      rcases hpolar with h | h <;>
        simp [SunTimes.riseutc, SunTimes.setutc, SunTimes.J_rise_set_greg, hha] at h <;>
        exact h.symm
    subst hm
    refine ⟨?_, ?_, Or.inl rfl⟩
    · simp [SunTimes.durationdelta, SunTimes.riseutc, SunTimes.setutc,
        SunTimes.J_rise_set_greg, hha]
    · simp [duration_day_entry, SunTimes.riseutc, SunTimes.setutc,
        SunTimes.J_rise_set_greg, hha]
  | PD =>
    have hm : m = "PD" := by
      rcases hpolar with h | h <;>
        simp [SunTimes.riseutc, SunTimes.setutc, SunTimes.J_rise_set_greg, hha] at h <;>
        exact h.symm
    subst hm
    refine ⟨?_, ?_, Or.inr rfl⟩
    · simp [SunTimes.durationdelta, SunTimes.riseutc, SunTimes.setutc,
        SunTimes.J_rise_set_greg, hha]
    · simp [duration_day_entry, SunTimes.riseutc, SunTimes.setutc,
        SunTimes.J_rise_set_greg, hha]

/-! ### C10 — the polar-day/night counters of PDPN_length -/

/-- C10: for every place and year, `SunFiles.PDPN_length` returns the
count of per-day records classified PolarNight first and the count of
records classified PolarDay second, each equal to the number of matching
entries in the year's duration sequence. -/
theorem C10_PDPN_length_counts : ∀ (st : SunTimes) (year : ℤ),
    SunFiles.PDPN_length st year =
      ((SunFiles.duration_days_year st year).countP
        (fun d => decide (d.dur = DurEntry.polar "PN")),
       (SunFiles.duration_days_year st year).countP
        (fun d => decide (d.dur = DurEntry.polar "PD"))) := by
  intro st year
  have hpred : ∀ (m : String) (d : DurDay),
      hasMark m d = decide (d.dur = DurEntry.polar m) := by
    intro m d
    cases hd : d.dur <;> simp only [hasMark, hd] <;> rw [Bool.eq_iff_iff] <;> simp
  have hfilter : ∀ m : String,
      (SunFiles.duration_days_year st year).filter (hasMark m) =
        (SunFiles.duration_days_year st year).filter
          (fun d => decide (d.dur = DurEntry.polar m)) := by
    intro m
    exact List.filter_congr (fun d _ => hpred m d)
  simp only [SunFiles.PDPN_length, List.countP_eq_length_filter, hfilter]

/-! ### C6 — reachability of the polar branches

Helper lemmas for the Python float modulo and for a concrete place whose
elevation correction is exactly -90 degrees (altitude `(445835/173)^2`
meters at the equator), at which the source's polar-day branch fires even
though the latitude is far inside the polar circles. -/

theorem pymod360_self {x : ℝ} (h1 : 0 ≤ x) (h2 : x < 360) : pymod360 x = x := by
  have h : ⌊x / 360⌋ = 0 := by
    rw [Int.floor_eq_zero_iff, Set.mem_Ico]
    exact ⟨by positivity, by rw [div_lt_one (by norm_num : (0:ℝ) < 360)]; exact h2⟩
  simp [pymod360, h]

theorem pymod360_sub {x : ℝ} (h1 : 360 ≤ x) (h2 : x < 720) : pymod360 x = x - 360 := by
  have h : ⌊x / 360⌋ = 1 := by
    rw [Int.floor_eq_iff]
    constructor
    · push_cast
      rw [le_div_iff₀ (by norm_num : (0:ℝ) < 360)]
      linarith
    · push_cast
      rw [div_lt_iff₀ (by norm_num : (0:ℝ) < 360)]
      linarith
  simp [pymod360, h]

/-- An equatorial place whose altitude makes the elevation correction
exactly -90 degrees: `-0.833 - 2.076 * (445835/173) / 60 = -90`. -/
noncomputable def high_altitude_place : SunTimes := ⟨0, 0, (445835 / 173 : ℝ) ^ 2⟩

def jan1_2000 : GDate := ⟨2000, 1, 1⟩

theorem msn_high :
    SunTimes.mean_solar_noon high_altitude_place jan1_2000 = 21 / 25000 := by
  have hj : jdn 2000 1 1 = 2451545 := by decide
  simp only [SunTimes.mean_solar_noon, high_altitude_place, jan1_2000, gcal2jd,
    JULIAN_DAYS_2000, JULIAN_DAYS_LEAP, hj]
  norm_num

theorem M_high : SunTimes.solar_mean_anomaly high_altitude_place jan1_2000 =
    3575299279042352 / 10 ^ 13 := by
  rw [SunTimes.solar_mean_anomaly, msn_high]
  rw [show MEAN_M0 + MEAN_M1 * (21 / 25000) = 3575299279042352 / 10 ^ 13 by
    simp only [MEAN_M0, MEAN_M1]; norm_num]
  exact pymod360_self (by norm_num) (by norm_num)

set_option maxHeartbeats 1000000 in
theorem C_high_bound :
    |SunTimes.equation_center high_altitude_place jan1_2000| ≤ 1.9351 := by
  rw [SunTimes.equation_center]
  simp only [CENTER_C0, CENTER_C1, CENTER_C2]
  have h1 := Real.sin_le_one
    (SunTimes.solar_mean_anomaly high_altitude_place jan1_2000 * Real.pi / 180)
  have h2 := Real.neg_one_le_sin
    (SunTimes.solar_mean_anomaly high_altitude_place jan1_2000 * Real.pi / 180)
  have h3 := Real.sin_le_one
    (2 * SunTimes.solar_mean_anomaly high_altitude_place jan1_2000 * Real.pi / 180)
  have h4 := Real.neg_one_le_sin
    (2 * SunTimes.solar_mean_anomaly high_altitude_place jan1_2000 * Real.pi / 180)
  have h5 := Real.sin_le_one
    (3 * SunTimes.solar_mean_anomaly high_altitude_place jan1_2000 * Real.pi / 180)
  have h6 := Real.neg_one_le_sin
    (3 * SunTimes.solar_mean_anomaly high_altitude_place jan1_2000 * Real.pi / 180)
  rw [abs_le]
  constructor <;> nlinarith

theorem lam_high_bounds :
    278 ≤ SunTimes.ecliptic_longitude high_altitude_place jan1_2000 ∧
    SunTimes.ecliptic_longitude high_altitude_place jan1_2000 ≤ 283 := by
  rw [SunTimes.ecliptic_longitude, M_high]
  obtain ⟨hCl, hCu⟩ := abs_le.mp C_high_bound
  simp only [PERIHELION_ARGUMENT]
  rw [pymod360_sub (by linarith) (by linarith)]
  constructor <;> linarith

set_option maxHeartbeats 1000000 in
theorem sin_lam_neg :
    Real.sin (SunTimes.ecliptic_longitude high_altitude_place jan1_2000 *
      Real.pi / 180) < 0 := by
  have hπ := Real.pi_pos
  obtain ⟨hl, hu⟩ := lam_high_bounds
  set lam := SunTimes.ecliptic_longitude high_altitude_place jan1_2000
  have hgt : Real.pi < lam * Real.pi / 180 := by nlinarith
  have hlt : lam * Real.pi / 180 < 2 * Real.pi := by nlinarith
  have hshift : Real.sin (lam * Real.pi / 180 - Real.pi) > 0 :=
    Real.sin_pos_of_pos_of_lt_pi (by linarith) (by linarith)
  rw [Real.sin_sub_pi] at hshift
  linarith

set_option maxHeartbeats 1000000 in
theorem delta_high_mem :
    -(Real.pi / 2) < SunTimes.declination_sun high_altitude_place jan1_2000 ∧
    SunTimes.declination_sun high_altitude_place jan1_2000 < 0 := by
  have hπ := Real.pi_pos
  rw [SunTimes.declination_sun]
  simp only [OBLIQUITY]
  have hb0 : (0:ℝ) < 23.44 * Real.pi / 180 := by positivity
  have hbπ : 23.44 * Real.pi / 180 < Real.pi := by nlinarith
  have hsinb_pos : 0 < Real.sin (23.44 * Real.pi / 180) :=
    Real.sin_pos_of_pos_of_lt_pi hb0 hbπ
  have hsinb_lt1 : Real.sin (23.44 * Real.pi / 180) < 1 := by
    have := Real.sin_lt_sin_of_lt_of_le_pi_div_two (x := 23.44 * Real.pi / 180)
      (y := Real.pi / 2) (by nlinarith) le_rfl (by nlinarith)
    rwa [Real.sin_pi_div_two] at this
  have hsinl := sin_lam_neg
  have hsinl_lo := Real.neg_one_le_sin
    (SunTimes.ecliptic_longitude high_altitude_place jan1_2000 * Real.pi / 180)
  constructor
  · rw [Real.neg_pi_div_two_lt_arcsin]
    nlinarith
  · rw [Real.arcsin_lt_zero]
    exact mul_neg_of_neg_of_pos hsinl hsinb_pos

theorem cos_delta_high :
    0 < Real.cos (SunTimes.declination_sun high_altitude_place jan1_2000) ∧
    Real.cos (SunTimes.declination_sun high_altitude_place jan1_2000) < 1 := by
  have hπ := Real.pi_pos
  obtain ⟨h1, h2⟩ := delta_high_mem
  constructor
  · exact Real.cos_pos_of_mem_Ioo ⟨h1, by linarith⟩
  · have := Real.cos_lt_cos_of_nonneg_of_le_pi (x := 0)
      (y := -SunTimes.declination_sun high_altitude_place jan1_2000)
      le_rfl (by linarith) (by linarith)
    rwa [Real.cos_zero, Real.cos_neg] at this

theorem getOmega0_high : SunTimes.getOmega0 high_altitude_place jan1_2000 < -1 := by
  obtain ⟨hc0, hc1⟩ := cos_delta_high
  have hsqrt : Real.sqrt ((445835 / 173 : ℝ) ^ 2) = 445835 / 173 :=
    Real.sqrt_sq (by norm_num)
  have helev : CORRECTION_REFRACTION +
      CORRECTION_ELEVATION * Real.sqrt (high_altitude_place.altitude) / 60 = -90 := by
    show CORRECTION_REFRACTION +
      CORRECTION_ELEVATION * Real.sqrt ((445835 / 173 : ℝ) ^ 2) / 60 = -90
    rw [hsqrt]
    simp only [CORRECTION_REFRACTION, CORRECTION_ELEVATION]
    norm_num
  rw [SunTimes.getOmega0]
  rw [helev]
  have hlat0 : high_altitude_place.latitude = 0 := rfl
  rw [hlat0]
  rw [show (-90 : ℝ) * Real.pi / 180 = -(Real.pi / 2) by ring]
  rw [show (0 : ℝ) * Real.pi / 180 = 0 by ring]
  rw [Real.sin_neg, Real.sin_pi_div_two, Real.sin_zero, Real.cos_zero]
  rw [zero_mul, sub_zero, one_mul]
  rw [show (-1 : ℝ) / Real.cos (high_altitude_place.declination_sun jan1_2000) =
    -(1 / Real.cos (high_altitude_place.declination_sun jan1_2000)) by ring]
  have : 1 < 1 / Real.cos (high_altitude_place.declination_sun jan1_2000) := by
    rw [lt_div_iff₀ hc0]
    linarith
  linarith

theorem hour_angle_high :
    SunTimes.hour_angle high_altitude_place jan1_2000 = HourAngle.PD := by
  have h := getOmega0_high
  simp only [SunTimes.hour_angle]
  rw [if_neg, if_neg]
  · linarith
  · intro habs
    rcases abs_le.mp habs with ⟨hl, _⟩
    linarith

theorem riseutc_high :
    SunTimes.riseutc high_altitude_place jan1_2000 = RiseSetResult.polar "PD" := by
  simp [SunTimes.riseutc, SunTimes.J_rise_set_greg, hour_angle_high]

/-- C6 counterexample: the place `high_altitude_place` satisfies the
claim's preconditions (latitude 0, so within the polar circles, and
nonnegative altitude), yet the calculator returns PolarDay on 2000-01-01:
the claim as stated is false, because the altitude-dependent elevation
correction is unbounded. -/
theorem C6_counterexample :
    |high_altitude_place.latitude| ≤ 66.56 ∧ 0 ≤ high_altitude_place.altitude ∧
    SunTimes.hour_angle high_altitude_place jan1_2000 = HourAngle.PD :=
  ⟨by rw [show high_altitude_place.latitude = 0 from rfl]; norm_num,
   by rw [show high_altitude_place.altitude = (445835 / 173 : ℝ) ^ 2 from rfl]; positivity,
   hour_angle_high⟩

/-- The sun declination produced by the source is at most the obliquity,
23.44 degrees, in magnitude. -/
theorem abs_declination_le (st : SunTimes) (date : GDate) :
    |st.declination_sun date| ≤ 23.44 * Real.pi / 180 := by
  have hπ := Real.pi_pos
  simp only [SunTimes.declination_sun, OBLIQUITY]
  set b : ℝ := 23.44 * Real.pi / 180 with hb
  have hb0 : 0 ≤ b := by rw [hb]; positivity
  have hbhalf : b ≤ Real.pi / 2 := by rw [hb]; nlinarith
  have hsinb : 0 ≤ Real.sin b := Real.sin_nonneg_of_nonneg_of_le_pi hb0 (by nlinarith)
  set t : ℝ := Real.sin (st.ecliptic_longitude date * Real.pi / 180) * Real.sin b
    with ht
  have hsin1 : Real.sin (st.ecliptic_longitude date * Real.pi / 180) ≤ 1 :=
    Real.sin_le_one _
  have hsinm1 : -1 ≤ Real.sin (st.ecliptic_longitude date * Real.pi / 180) :=
    Real.neg_one_le_sin _
  have ht_up : t ≤ Real.sin b := by rw [ht]; nlinarith
  have ht_lo : -Real.sin b ≤ t := by rw [ht]; nlinarith
  have harcsin_b : Real.arcsin (Real.sin b) = b :=
    Real.arcsin_sin (by linarith) hbhalf
  rw [abs_le]
  constructor
  · have := Real.monotone_arcsin ht_lo
    rwa [Real.arcsin_neg, harcsin_b] at this
  · have := Real.monotone_arcsin ht_up
    rwa [harcsin_b] at this

set_option maxHeartbeats 1600000 in
/-- C6 (amended): for every place with |latitude| ≤ 65 degrees and
altitude between 0 and 100 meters, and every date, the calculator never
returns PolarDay or PolarNight: the hour-angle cosine stays within
[-1, 1], so the `acos` branch is always taken.  (As stated — altitude
merely nonnegative and |latitude| up to 66.56 — the claim fails, see the
counterexample; with the elevation correction bounded by these limits the
polar branches are indeed unreachable.) -/
theorem C6_no_polar_within_bounds : ∀ (st : SunTimes) (date : GDate),
    |st.latitude| ≤ 65 → 0 ≤ st.altitude → st.altitude ≤ 100 →
    ∃ omega0, st.hour_angle date = HourAngle.angle omega0 := by
  intro st date hlat halt0 halt100
  have hπ := Real.pi_pos
  have hδ := abs_declination_le st date
  set δ := st.declination_sun date with hδdef
  obtain ⟨hδlo, hδhi⟩ := abs_le.mp hδ
  set latR : ℝ := st.latitude * Real.pi / 180 with hlatRdef
  have hlatR : |latR| ≤ 65 * Real.pi / 180 := by
    rw [hlatRdef, mul_div_assoc, abs_mul,
      abs_of_nonneg (by positivity : (0:ℝ) ≤ Real.pi / 180)]
    calc |st.latitude| * (Real.pi / 180) ≤ 65 * (Real.pi / 180) := by
          apply mul_le_mul_of_nonneg_right hlat; positivity
      _ = 65 * Real.pi / 180 := by ring
  obtain ⟨hlatlo, hlathi⟩ := abs_le.mp hlatR
  have hsqrt0 : 0 ≤ Real.sqrt st.altitude := Real.sqrt_nonneg _
  have hsqrt10 : Real.sqrt st.altitude ≤ 10 := by
    have h100 : Real.sqrt st.altitude ≤ Real.sqrt 100 := Real.sqrt_le_sqrt halt100
    rwa [show (100:ℝ) = 10 ^ 2 by norm_num,
      Real.sqrt_sq (by norm_num : (0:ℝ) ≤ 10)] at h100
  set e : ℝ := CORRECTION_REFRACTION + CORRECTION_ELEVATION * Real.sqrt st.altitude / 60
    with hedef
  have he_lo : -1.179 ≤ e := by
    rw [hedef]; simp only [CORRECTION_REFRACTION, CORRECTION_ELEVATION]; nlinarith
  have he_hi : e ≤ -0.833 := by
    rw [hedef]; simp only [CORRECTION_REFRACTION, CORRECTION_ELEVATION]; nlinarith
  set eR : ℝ := e * Real.pi / 180 with heRdef
  have heR_lo : -(1.179 * Real.pi / 180) ≤ eR := by rw [heRdef]; nlinarith
  have heR_hi : eR ≤ -(0.833 * Real.pi / 180) := by rw [heRdef]; nlinarith
  have hsin_eR_neg : Real.sin eR < 0 :=
    Real.sin_neg_of_neg_of_neg_pi_lt (by nlinarith) (by nlinarith)
  have hcoslat : 0 < Real.cos latR :=
    Real.cos_pos_of_mem_Ioo ⟨by nlinarith, by nlinarith⟩
  have hcosδ : 0 < Real.cos δ :=
    Real.cos_pos_of_mem_Ioo ⟨by nlinarith, by nlinarith⟩
  have hcosA : 0 ≤ Real.cos (latR - δ) :=
    Real.cos_nonneg_of_mem_Icc ⟨by nlinarith, by nlinarith⟩
  have hupper : Real.sin eR - Real.sin latR * Real.sin δ ≤
      Real.cos latR * Real.cos δ := by
    have hsub := Real.cos_sub latR δ
    nlinarith
  have habsB : |latR + δ| ≤ 88.44 * Real.pi / 180 := by
    rw [abs_le]; constructor <;> nlinarith
  have h1 : Real.cos (88.44 * Real.pi / 180) ≤ Real.cos (latR + δ) := by
    calc Real.cos (88.44 * Real.pi / 180) ≤ Real.cos |latR + δ| :=
          Real.cos_le_cos_of_nonneg_of_le_pi (abs_nonneg _) (by nlinarith) habsB
      _ = Real.cos (latR + δ) := Real.cos_abs _
  have h2 : Real.cos (88.44 * Real.pi / 180) = Real.sin (1.56 * Real.pi / 180) := by
    rw [← Real.cos_pi_div_two_sub (1.56 * Real.pi / 180)]
    congr 1
    ring
  have h3 : Real.sin (-eR) ≤ Real.sin (1.56 * Real.pi / 180) := by
    apply Real.sin_le_sin_of_le_of_le_pi_div_two (by nlinarith) (by nlinarith)
      (by nlinarith)
  have hlower : -(Real.cos latR * Real.cos δ) ≤
      Real.sin eR - Real.sin latR * Real.sin δ := by
    have hadd := Real.cos_add latR δ
    rw [Real.sin_neg] at h3
    nlinarith
  have hden : 0 < Real.cos latR * Real.cos δ := mul_pos hcoslat hcosδ
  have hcos : st.getOmega0 date =
      (Real.sin eR - Real.sin latR * Real.sin δ) / (Real.cos latR * Real.cos δ) := by
    simp only [SunTimes.getOmega0, heRdef, hedef, hlatRdef, hδdef]
  have habs : |st.getOmega0 date| ≤ 1 := by
    rw [hcos, abs_div, abs_of_pos hden, div_le_one hden, abs_le]
    exact ⟨by linarith [hlower], by linarith [hupper]⟩
  exact ⟨Real.arccos (st.getOmega0 date), by
    simp only [SunTimes.hour_angle]
    rw [if_pos habs]⟩

/-- C6 witness: the amended theorem evaluated at Paris (longitude 2.35,
latitude 48.85, altitude 35) on 2020-06-21: the result is a concrete hour
angle, not a polar marker. -/
theorem C6_witness :
    |(48.85 : ℝ)| ≤ 65 ∧ (0 : ℝ) ≤ 35 ∧ (35 : ℝ) ≤ 100 ∧
    ∃ omega0, SunTimes.hour_angle ⟨2.35, 48.85, 35⟩ ⟨2020, 6, 21⟩ =
      HourAngle.angle omega0 :=
  ⟨by rw [abs_le]; constructor <;> norm_num, by norm_num, by norm_num,
    C6_no_polar_within_bounds ⟨2.35, 48.85, 35⟩ ⟨2020, 6, 21⟩
      (by rw [abs_le]; constructor <;> norm_num) (by norm_num) (by norm_num)⟩

/-- C9 witness: at `high_altitude_place` on 2000-01-01 the rise outcome
is the polar marker `"PD"` and the duration is the tagged not-calculable
value. -/
theorem C9_witness :
    SunTimes.riseutc high_altitude_place jan1_2000 = RiseSetResult.polar "PD" ∧
    SunTimes.durationdelta high_altitude_place jan1_2000 =
      Sum.inr ("Not calculable : " ++ "PD") ∧
    (duration_day_entry high_altitude_place 2000 1 1).dur = DurEntry.polar "PD" :=
  ⟨riseutc_high,
    (C9_polar_duration_tagged high_altitude_place 2000 1 1 "PD"
      (Or.inl riseutc_high)).1,
    (C9_polar_duration_tagged high_altitude_place 2000 1 1 "PD"
      (Or.inl riseutc_high)).2.1⟩

end Suntimes
